import Mathlib

/-!
# Verification of checkSplitter (src/check.py and src/checks/check.py)

Shallow embedding of the checkSplitter repository in Lean 4.

Modelling conventions:
* Python numbers (`float`) are modelled by `ℚ`, so that arithmetic facts are
  exact; the spec's "up to floating tolerance" equalities become exact
  equalities over `ℚ`.
* Python sets (`set(items)`, `set(payers)`) are modelled by lists holding the
  set's elements in its iteration order; `Payer` and `Item` carry an `id`
  field modelling Python reference identity (two distinct instances never
  compare equal even when the visible fields coincide).
* The Python dict `item_assignments` is modelled by an association list with
  first-match lookup (a dict has unique keys, so first match is the dict
  lookup); a value may be `Option.none`, mirroring the `is None` defensive
  test in the source.
* Runtime exceptions (`TypeError`, `ZeroDivisionError`, `KeyError`) are
  modelled by `Except PyError`; a Python function that cannot raise is
  embedded as a plain function.
-/

namespace CheckSplitter

/-- Python runtime exceptions that the embedded code can raise. -/
inductive PyError where
  | typeError
  | zeroDivisionError
  | keyError
deriving DecidableEq, Repr

/-- Payer from src/checks/check.py: a name; the `id` field models Python
reference identity. -/
structure Payer where
  id : Nat
  name : String
deriving DecidableEq, Repr

/-- Item from src/checks/check.py: a name and a cost; the `id` field models
Python reference identity. -/
structure Item where
  id : Nat
  name : String
  cost : ℚ
deriving DecidableEq, Repr

/-- Check from src/checks/check.py: a set of items (modelled as the list of
the set's elements in iteration order). -/
structure Check where
  items : List Item
deriving DecidableEq, Repr

/-- Embedding of `Check.subtotal` from src/checks/check.py:
`sum([item.cost for item in self.items])`. -/
def Check.subtotal (c : Check) : ℚ :=
  (c.items.map Item.cost).sum

/-- Embedding of `Check.tax_amount` from src/checks/check.py:
`tax_rate * self.subtotal()`. -/
def Check.tax_amount (c : Check) (tax_rate : ℚ) : ℚ :=
  tax_rate * c.subtotal

/-- Embedding of `Check.total` from src/checks/check.py, line 52: the body evaluates
`tip + self.tax_amount() + self.subtotal()`, but `tax_amount` requires the
positional argument `tax_rate`, so the zero-argument call
`self.tax_amount()` raises `TypeError` before any arithmetic happens
(the local `tax_multiplier = 1.0 + tax_rate` is computed and never used). -/
def Check.total (c : Check) (tax_rate : ℚ) (tip : ℚ) : Except PyError ℚ :=
  Except.error PyError.typeError

/-- SplitCheck from src/checks/check.py: a check, a set of payers and the
item assignment dict. A dict value `none` models a `None` entry (the source
guards against it with `is None`). -/
structure SplitCheck where
  check : Check
  payers : List Payer
  item_assignments : List (Item × Option (List Payer))
deriving DecidableEq, Repr

/-- Dict lookup on `item_assignments`: first match, `Option.none` when the
item is not a key (models `item not in self.item_assignments` /
`self.item_assignments[item]`). -/
def SplitCheck.lookup_assignment (s : SplitCheck) (item : Item) : Option (Option (List Payer)) :=
  go s.item_assignments
where
  go : List (Item × Option (List Payer)) → Option (Option (List Payer))
    | [] => Option.none
    | (k, v) :: rest => if k = item then Option.some v else go rest

/-- Per-item increment of the inner loop of `compute_proportions`
(src/checks/check.py lines 101-109): if the item is not a key of
`item_assignments`, or its value is `None` or empty, the increment is
`item.cost / len(self.payers)`; otherwise it is
`item.cost / len(self.item_assignments[item])`. Note that, as in the
source, the increment does not depend on which payer is being processed:
the source comment says "check if they are paying", but no membership test
is performed. -/
def SplitCheck.item_share (s : SplitCheck) (item : Item) : ℚ :=
  match s.lookup_assignment item with
  | Option.none => item.cost / (s.payers.length : ℚ)
  | Option.some Option.none => item.cost / (s.payers.length : ℚ)
  | Option.some (Option.some assigned) =>
      if assigned.length = 0 then item.cost / (s.payers.length : ℚ)
      else item.cost / (assigned.length : ℚ)

/-- Body of the per-payer loop of `compute_proportions`: the accumulated
`payer_subtotal` after the inner loop over `check.items`. The `payer`
argument is unused, exactly as in the source, where the loop body never
consults the current payer. -/
def SplitCheck.payer_subtotal (s : SplitCheck) (payer : Payer) : ℚ :=
  (s.check.items.map s.item_share).sum

/-- The outer loop of `compute_proportions` over the remaining payers: for
each payer, compute `payer_subtotal`, then divide by `check.subtotal()`;
that division raises `ZeroDivisionError` when the subtotal is zero (the
divisions inside `payer_subtotal` cannot raise here: `len(self.payers)` is
positive whenever the loop body runs, and the explicit-assignment branch is
guarded by `len(...) == 0`). -/
def SplitCheck.proportions_loop (s : SplitCheck) : List Payer → Except PyError (List (Payer × ℚ))
  | [] => Except.ok []
  | p :: rest =>
      if s.check.subtotal = 0 then Except.error PyError.zeroDivisionError
      else
        match s.proportions_loop rest with
        | Except.error e => Except.error e
        | Except.ok tail => Except.ok ((p, s.payer_subtotal p / s.check.subtotal) :: tail)

/-- Embedding of `SplitCheck.compute_proportions` from src/checks/check.py lines 93-114:
iterate over `self.payers`, building the result dict (modelled as an
association list in iteration order). -/
def SplitCheck.compute_proportions (s : SplitCheck) : Except PyError (List (Payer × ℚ)) :=
  s.proportions_loop s.payers

/-- Dict access `proportions[p]`: raises `KeyError` when `p` is not a key. -/
def dict_get (d : List (Payer × ℚ)) (p : Payer) : Except PyError ℚ :=
  match d with
  | [] => Except.error PyError.keyError
  | (k, v) :: rest => if k = p then Except.ok v else dict_get rest p

/-- The dict comprehension of `compute_amounts_owed` over the remaining
payers: for each payer `p`, evaluate `proportions[p] * check.subtotal()`,
`proportions[p] * check.total(tax_rate)` and
`proportions[p] * check.total(tax_rate, tip)` in order (the calls to
`check.total` raise `TypeError`, see `Check.total`). -/
def SplitCheck.amounts_loop (s : SplitCheck) (proportions : List (Payer × ℚ))
    (tax_rate tip : ℚ) : List Payer → Except PyError (List (Payer × (ℚ × ℚ × ℚ)))
  | [] => Except.ok []
  | p :: rest =>
      match dict_get proportions p with
      | Except.error e => Except.error e
      | Except.ok prop =>
        match s.check.total tax_rate 0 with
        | Except.error e => Except.error e
        | Except.ok t1 =>
          match s.check.total tax_rate tip with
          | Except.error e => Except.error e
          | Except.ok t2 =>
            match s.amounts_loop proportions tax_rate tip rest with
            | Except.error e => Except.error e
            | Except.ok tail =>
                Except.ok ((p, (prop * s.check.subtotal, prop * t1, prop * t2)) :: tail)

/-- Embedding of `SplitCheck.compute_amounts_owed` from src/checks/check.py lines
116-128: first run `compute_proportions`, then build the per-payer triple
dict. -/
def SplitCheck.compute_amounts_owed (s : SplitCheck) (tax_rate tip : ℚ) :
    Except PyError (List (Payer × (ℚ × ℚ × ℚ))) :=
  match s.compute_proportions with
  | Except.error e => Except.error e
  | Except.ok proportions => s.amounts_loop proportions tax_rate tip s.payers

end CheckSplitter

namespace Legacy

/-- Check from src/check.py (the older variant): a set of items plus a tax
rate stored in the object. -/
structure Check where
  items : List CheckSplitter.Item
  tax_rate : ℚ
deriving DecidableEq, Repr

/-- Embedding of `Check.subtotal` from src/check.py. -/
def Check.subtotal (c : Check) : ℚ :=
  (c.items.map CheckSplitter.Item.cost).sum

/-- Embedding of `Check.total` from src/check.py lines 39-46:
`tip + (1.0 + self.tax_rate) * self.subtotal()`. -/
def Check.total (c : Check) (tip : ℚ) : ℚ :=
  tip + (1 + c.tax_rate) * c.subtotal

end Legacy

open CheckSplitter

/-! ## Concrete instances used by witnesses and evaluation theorems -/

/-- Concrete payer "Alice" (identity 1). -/
def alice : Payer := ⟨1, "Alice"⟩

/-- Concrete payer "Bob" (identity 2). -/
def bob : Payer := ⟨2, "Bob"⟩

/-- Concrete payer "Carol" (identity 3); used as a payer outside a split's payer set. -/
def carol : Payer := ⟨3, "Carol"⟩

/-- Concrete item of cost 10. -/
def itemX : Item := ⟨1, "X", 10⟩

/-- Second concrete item of cost 10. -/
def itemB : Item := ⟨2, "B", 10⟩

/-- Item "a" of cost 10 from the spec's tax/tip example. -/
def itemA10 : Item := ⟨3, "a", 10⟩

/-- Item "b" of cost 20 from the spec's tax/tip example. -/
def itemB20 : Item := ⟨4, "b", 20⟩

/-- Item "x" of cost 5 from the spec's empty-payer example. -/
def itemX5 : Item := ⟨5, "x", 5⟩

/-- Split with payers Alice and Bob and the single item `itemX` explicitly assigned to Alice alone. -/
def sAssignedToAlice : SplitCheck := ⟨⟨[itemX]⟩, [alice, bob], [(itemX, Option.some [alice])]⟩

/-- Split with single payer Alice, `itemX` assigned to Carol (disjoint from the payer set) and `itemB` unassigned. -/
def sDisjoint : SplitCheck := ⟨⟨[itemX, itemB]⟩, [alice], [(itemX, Option.some [carol])]⟩

/-- Split of `Check([Item("x", 5)])` with an empty payer set (the spec's empty-payer example). -/
def sNoPayers : SplitCheck := ⟨⟨[itemX5]⟩, [], []⟩

/-- Split of an empty check between Alice and Bob (the spec's zero-subtotal example). -/
def sEmptyCheck : SplitCheck := ⟨⟨[]⟩, [alice, bob], []⟩

/-- Split of two items between Alice and Bob with no explicit assignments. -/
def sEven : SplitCheck := ⟨⟨[itemX, itemB]⟩, [alice, bob], []⟩

/-- Split of one item of cost 5 with single payer Alice and no assignments. -/
def sSingle : SplitCheck := ⟨⟨[itemX5]⟩, [alice], []⟩

/-- Check from the spec's tax/tip arithmetic example: items of cost 10 and 20. -/
def specCheck : Check := ⟨[itemA10, itemB20]⟩

/-! ## Helper lemmas -/

/-- When the check subtotal is nonzero, the payer loop returns the dict that sends
each payer in the processed list to `payer_subtotal / subtotal`. -/
lemma proportions_loop_ok (s : SplitCheck) (h : s.check.subtotal ≠ 0)
    (l : List Payer) : s.proportions_loop l =
      Except.ok (l.map fun p => (p, s.payer_subtotal p / s.check.subtotal)) := by
  induction l with
  | nil => simp [SplitCheck.proportions_loop]
  | cons p rest ih => simp [SplitCheck.proportions_loop, h, ih]

/-- Whatever dict the payer loop returns has exactly the processed payers as keys,
in order. -/
lemma proportions_loop_keys (s : SplitCheck) (l : List Payer)
    (res : List (Payer × ℚ)) (h : s.proportions_loop l = Except.ok res) :
    res.map Prod.fst = l := by
  induction l generalizing res with
  | nil =>
      simp only [SplitCheck.proportions_loop, Except.ok.injEq] at h
      simp [← h]
  | cons p rest ih =>
      rw [SplitCheck.proportions_loop] at h
      by_cases h0 : s.check.subtotal = 0
      · simp [h0] at h
      · rw [if_neg h0] at h
        cases hrec : s.proportions_loop rest with
        | error e => rw [hrec] at h; simp at h
        | ok tail =>
            rw [hrec] at h
            simp only [Except.ok.injEq] at h
            simp [← h, ih tail hrec]

/-- With no explicit assignments every item's increment is `cost / len(payers)`. -/
lemma item_share_no_assignments (s : SplitCheck) (ha : s.item_assignments = [])
    (item : Item) : s.item_share item = item.cost / (s.payers.length : ℚ) := by
  simp [SplitCheck.item_share, SplitCheck.lookup_assignment, ha,
    SplitCheck.lookup_assignment.go]

/-- With no explicit assignments each payer's accumulated subtotal is
`subtotal / len(payers)`. -/
lemma payer_subtotal_no_assignments (s : SplitCheck) (ha : s.item_assignments = [])
    (p : Payer) : s.payer_subtotal p = s.check.subtotal / (s.payers.length : ℚ) := by
  have : s.check.items.map s.item_share
      = s.check.items.map fun i => i.cost * ((s.payers.length : ℚ))⁻¹ := by
    refine List.map_congr_left fun i _ => ?_
    rw [item_share_no_assignments s ha, div_eq_mul_inv]
  rw [SplitCheck.payer_subtotal, this, List.sum_map_mul_right, Check.subtotal,
    div_eq_mul_inv]

/-! ## Claim theorems -/

/-- C6 (confirmed): for a non-empty payer set and zero check subtotal,
`compute_proportions` raises `ZeroDivisionError` and returns no mapping. -/
theorem compute_proportions_zero_subtotal (s : SplitCheck) (hp : s.payers ≠ [])
    (h0 : s.check.subtotal = 0) :
    s.compute_proportions = Except.error PyError.zeroDivisionError := by
  rw [SplitCheck.compute_proportions]
  cases hl : s.payers with
  | nil => exact absurd hl hp
  | cons p rest => simp [SplitCheck.proportions_loop, h0]

/-- Witness for C6 at the spec's own example `SplitCheck(Check([]), {P1, P2})`. -/
theorem compute_proportions_zero_subtotal_witness :
    sEmptyCheck.payers ≠ [] ∧ sEmptyCheck.check.subtotal = 0 ∧
      sEmptyCheck.compute_proportions = Except.error PyError.zeroDivisionError :=
  ⟨by simp [sEmptyCheck], by norm_num [sEmptyCheck, Check.subtotal],
    compute_proportions_zero_subtotal sEmptyCheck (by simp [sEmptyCheck])
      (by norm_num [sEmptyCheck, Check.subtotal])⟩

/-- C8 (confirmed): with empty `item_assignments`, a non-empty payer set and a
nonzero subtotal, every payer's proportion is exactly `1 / len(payers)`. -/
theorem compute_proportions_even_split (s : SplitCheck) (hp : s.payers ≠ [])
    (ha : s.item_assignments = []) (h0 : s.check.subtotal ≠ 0) :
    s.compute_proportions
      = Except.ok (s.payers.map fun p => (p, 1 / (s.payers.length : ℚ))) := by
  rw [SplitCheck.compute_proportions, proportions_loop_ok s h0]
  refine congrArg Except.ok (List.map_congr_left fun p _ => ?_)
  rw [payer_subtotal_no_assignments s ha, div_right_comm, div_self h0]

/-- Witness for C8: two items split between Alice and Bob gives 1/2 each. -/
theorem compute_proportions_even_split_witness :
    sEven.payers ≠ [] ∧ sEven.item_assignments = [] ∧ sEven.check.subtotal ≠ 0 ∧
      sEven.compute_proportions
        = Except.ok (sEven.payers.map fun p => (p, 1 / (sEven.payers.length : ℚ))) :=
  ⟨by simp [sEven], rfl, by norm_num [sEven, Check.subtotal, itemX, itemB],
    compute_proportions_even_split sEven (by simp [sEven]) rfl
      (by norm_num [sEven, Check.subtotal, itemX, itemB])⟩

/-- C9 (confirmed): for a non-empty payer set and nonzero subtotal,
`compute_proportions` gives every payer one and the same proportion, whatever
`item_assignments` holds: the loop increment never consults the current payer. -/
theorem compute_proportions_uniform (s : SplitCheck) (hp : s.payers ≠ [])
    (h0 : s.check.subtotal ≠ 0) :
    ∃ q : ℚ, s.compute_proportions = Except.ok (s.payers.map fun p => (p, q)) := by
  refine ⟨(s.check.items.map s.item_share).sum / s.check.subtotal, ?_⟩
  rw [SplitCheck.compute_proportions, proportions_loop_ok s h0]
  rfl

/-- Witness for C9 at a split with a nontrivial assignment: both Alice and Bob
receive the same proportion even though only Alice is assigned the item. -/
theorem compute_proportions_uniform_witness :
    sAssignedToAlice.payers ≠ [] ∧ sAssignedToAlice.check.subtotal ≠ 0 ∧
      ∃ q : ℚ, sAssignedToAlice.compute_proportions
        = Except.ok (sAssignedToAlice.payers.map fun p => (p, q)) :=
  ⟨by simp [sAssignedToAlice], by norm_num [sAssignedToAlice, Check.subtotal, itemX],
    compute_proportions_uniform sAssignedToAlice (by simp [sAssignedToAlice])
      (by norm_num [sAssignedToAlice, Check.subtotal, itemX])⟩

/-- C10 (confirmed): whenever `compute_proportions` returns a dict, its keys are
exactly the payers of the split, in iteration order. -/
theorem compute_proportions_keys_eq_payers (s : SplitCheck)
    (res : List (Payer × ℚ)) (h : s.compute_proportions = Except.ok res) :
    res.map Prod.fst = s.payers :=
  proportions_loop_keys s s.payers res h

/-- Witness for C10 at the even split of two items between Alice and Bob. -/
theorem compute_proportions_keys_eq_payers_witness :
    sEven.compute_proportions = Except.ok [(alice, 1/2), (bob, 1/2)] ∧
      ([(alice, (1 : ℚ)/2), (bob, 1/2)].map Prod.fst = sEven.payers) :=
  ⟨by norm_num [sEven, SplitCheck.compute_proportions, SplitCheck.proportions_loop,
      SplitCheck.payer_subtotal, SplitCheck.item_share, SplitCheck.lookup_assignment,
      SplitCheck.lookup_assignment.go, Check.subtotal, itemX, itemB],
    compute_proportions_keys_eq_payers sEven [(alice, 1/2), (bob, 1/2)]
      (by norm_num [sEven, SplitCheck.compute_proportions, SplitCheck.proportions_loop,
        SplitCheck.payer_subtotal, SplitCheck.item_share, SplitCheck.lookup_assignment,
        SplitCheck.lookup_assignment.go, Check.subtotal, itemX, itemB])⟩

/-- C5 (corrected): with an empty payer set the payer loop never runs, so both
`compute_proportions` and `compute_amounts_owed` return the empty dict without
raising any error; no `EmptyPayerSet` failure exists in the code. -/
theorem compute_empty_payers_returns_empty (s : SplitCheck) (hp : s.payers = []) :
    s.compute_proportions = Except.ok [] ∧
      ∀ tax_rate tip : ℚ, s.compute_amounts_owed tax_rate tip = Except.ok [] := by
  have h1 : s.compute_proportions = Except.ok [] := by
    rw [SplitCheck.compute_proportions, hp]
    rfl
  refine ⟨h1, fun tax_rate tip => ?_⟩
  rw [SplitCheck.compute_amounts_owed, h1, hp]
  rfl

/-- Witness for the amended C5 at the spec's own example
`SplitCheck(Check([Item("x", 5)]), set())`. -/
theorem compute_empty_payers_returns_empty_witness :
    sNoPayers.payers = [] ∧ (sNoPayers.compute_proportions = Except.ok [] ∧
      ∀ tax_rate tip : ℚ, sNoPayers.compute_amounts_owed tax_rate tip = Except.ok []) :=
  ⟨rfl, compute_empty_payers_returns_empty sNoPayers rfl⟩

/-- Counterexample to C5 as stated: at the spec's own input
`SplitCheck(Check([Item("x", 5)]), set())`, both computations return the empty
dict (`Except.ok []`); nothing fails, and no `EmptyPayerSet` error arises. -/
theorem empty_payer_set_claim_counterexample :
    sNoPayers.compute_proportions = Except.ok [] ∧
      sNoPayers.compute_amounts_owed 0 0 = Except.ok [] := by
  constructor
  · rfl
  · rfl

/-- C1 (code bug, evaluation): with payers Alice and Bob and the single item of
cost 10 assigned to Alice alone, the loop adds the full `10 / 1` share to Bob's
`payer_subtotal` as well — the source never tests membership in the assigned
set — so both payers end with proportion 1. -/
theorem share_added_to_nonmember_eval :
    sAssignedToAlice.payer_subtotal bob = 10 ∧
      sAssignedToAlice.compute_proportions = Except.ok [(alice, 1), (bob, 1)] := by
  constructor
  · norm_num [sAssignedToAlice, SplitCheck.payer_subtotal, SplitCheck.item_share,
      SplitCheck.lookup_assignment, SplitCheck.lookup_assignment.go, itemX, alice]
  · norm_num [sAssignedToAlice, SplitCheck.compute_proportions,
      SplitCheck.proportions_loop, SplitCheck.payer_subtotal, SplitCheck.item_share,
      SplitCheck.lookup_assignment, SplitCheck.lookup_assignment.go, Check.subtotal,
      itemX, alice]

/-- C2 (code bug, evaluation): at the same split — whose assigned set `{Alice}`
is a subset of the payers and whose subtotal is nonzero — the returned
proportions sum to 2, not 1. -/
theorem proportions_sum_exceeds_one_eval :
    Except.map (fun l => ((l.map Prod.snd).sum : ℚ))
      sAssignedToAlice.compute_proportions = Except.ok 2 := by
  norm_num [sAssignedToAlice, SplitCheck.compute_proportions,
    SplitCheck.proportions_loop, SplitCheck.payer_subtotal, SplitCheck.item_share,
    SplitCheck.lookup_assignment, SplitCheck.lookup_assignment.go, Check.subtotal,
    itemX, alice, Except.map]

/-- C3 (code bug, evaluation): on the spec's example check (items of cost 10
and 20), `total(0.1, 5)` raises `TypeError` — the body calls `tax_amount()`
without its required `tax_rate` argument — whereas the documented value
`subtotal() + tax_amount(0.1) + 5` is 38. -/
theorem total_raises_type_error_eval :
    specCheck.total (1/10) 5 = Except.error PyError.typeError ∧
      specCheck.subtotal + specCheck.tax_amount (1/10) + 5 = 38 := by
  constructor
  · rfl
  · norm_num [specCheck, Check.subtotal, Check.tax_amount, itemA10, itemB20]

/-- C4 (code bug, evaluation): on a split whose `compute_proportions` succeeds
(single payer Alice, one item of cost 5, proportion 1),
`compute_amounts_owed(0, 0)` raises `TypeError` instead of returning the
per-payer triples, because it calls the broken `check.total`. -/
theorem amounts_owed_raises_type_error_eval :
    sSingle.compute_proportions = Except.ok [(alice, 1)] ∧
      sSingle.compute_amounts_owed 0 0 = Except.error PyError.typeError := by
  constructor
  · norm_num [sSingle, SplitCheck.compute_proportions, SplitCheck.proportions_loop,
      SplitCheck.payer_subtotal, SplitCheck.item_share, SplitCheck.lookup_assignment,
      SplitCheck.lookup_assignment.go, Check.subtotal, itemX5]
  · norm_num [sSingle, SplitCheck.compute_amounts_owed, SplitCheck.compute_proportions,
      SplitCheck.proportions_loop, SplitCheck.amounts_loop, SplitCheck.payer_subtotal,
      SplitCheck.item_share, SplitCheck.lookup_assignment, SplitCheck.lookup_assignment.go,
      Check.subtotal, Check.total, dict_get, itemX5, alice]

/-- C7 (code bug, evaluation): with single payer Alice, item `itemX` (cost 10)
assigned to outsider Carol and item `itemB` (cost 10) unassigned, the
Carol-assigned item still contributes its full `10 / 1` share to Alice, so
Alice's proportion is 1 and the proportions sum to 1, not strictly less. -/
theorem disjoint_assignment_still_contributes_eval :
    sDisjoint.item_share itemX = 10 ∧
      sDisjoint.compute_proportions = Except.ok [(alice, 1)] := by
  constructor
  · norm_num [sDisjoint, SplitCheck.item_share, SplitCheck.lookup_assignment,
      SplitCheck.lookup_assignment.go, itemX, carol]
  · norm_num [sDisjoint, SplitCheck.compute_proportions, SplitCheck.proportions_loop,
      SplitCheck.payer_subtotal, SplitCheck.item_share, SplitCheck.lookup_assignment,
      SplitCheck.lookup_assignment.go, Check.subtotal, itemX, itemB, carol]
